import Mathlib

/-! Verification of django_blog/static/js/script.js.

A shallow embedding of the blog's client-side script and of the part of the
browser it talks to: the console (log channel), the event listener list of
the document and the bindings of the global object.

The script has three top-level items:

* line 2:  `console.log("Django Blog loaded successfully!");`
* lines 5-7: the declaration of `initializeBlog`, whose body is
  `console.log("Blog initialized");`
* line 10: `document.addEventListener('DOMContentLoaded', initializeBlog);`
-/

namespace DjangoBlog

/-! ## Host state -/

/-- Errors a statement of the script can raise: a reference to a global that
the host does not provide. -/
inductive JsError where
  | referenceError (name : String)
  deriving DecidableEq, Repr

/-- Function objects that can be registered as listeners.  The function
declaration on lines 5-7 is rendered as the Lean definition `initializeBlog`;
this tag is the value that names it. -/
inductive Callback where
  | initializeBlog
  deriving DecidableEq, Repr

/-- An entry of an event listener list.  `once` is the flag of the options
argument of `addEventListener`; it is `false` when the argument is omitted. -/
structure Listener where
  type : String
  callback : Callback
  once : Bool
  deriving DecidableEq, Repr

/-- The event object the host hands to a listener. -/
structure Event where
  type : String
  timeStamp : Nat
  deriving DecidableEq, Repr

/-- Values of the language: what a caller may pass to a function of the script
and what a global name may be bound to. -/
inductive Value where
  | undefined
  | number (n : Int)
  | string (s : String)
  | event (e : Event)
  | function (f : Callback)
  deriving DecidableEq, Repr

/-- The host (browser) state.  `console` is the log channel, `none` when the
host has no global `console`; `document` is the event listener list of the
document, `none` when the host has no global `document`.  `globals` holds the
other bindings of the global object, by name.  The remaining fields stand for
what the script could reach but does not: requests sent, storage entries and
the content of the page. -/
structure Host where
  console : Option (List String)
  document : Option (List Listener)
  globals : List (String × Value)
  network : List String
  storage : List (String × String)
  dom : List String
  deriving DecidableEq, Repr

/-- How a statement completes: normally, or by throwing.  Both carry the host
state reached. -/
inductive Completion where
  | normal (h : Host)
  | throw (e : JsError) (h : Host)
  deriving DecidableEq, Repr

/-- The host state a completion ends in. -/
def Completion.host : Completion → Host
  | .normal h => h
  | .throw _ h => h

/-- Sequencing of statements: the next statement runs only after a normal
completion. -/
def Completion.andThen (c : Completion) (k : Host → Completion) : Completion :=
  match c with
  | .normal h => k h
  | .throw e h => .throw e h

/-! ## Host operations used by the script -/

/-- `console.log(msg)` with a string argument: appends the string to the log
channel; a `ReferenceError` when there is no `console`. -/
def consoleLog (msg : String) (h : Host) : Completion :=
  match h.console with
  | some out => .normal { h with console := some (out ++ [msg]) }
  | none => .throw (.referenceError "console") h

/-- `document.addEventListener(type, callback)` without an options argument:
appends a listener that is not `once`.  The host skips the append when the
list already holds the same type with the same function OBJECT; a function
declaration creates a new object each time the script is evaluated, so the
registration on line 10 is never skipped. -/
def addEventListener (type : String) (cb : Callback) (h : Host) : Completion :=
  match h.document with
  | some ls => .normal { h with document := some (ls ++ [⟨type, cb, false⟩]) }
  | none => .throw (.referenceError "document") h

/-- Binding of a global name: an existing binding of the name is overwritten in
place, otherwise the binding is added. -/
def bindGlobal (name : String) (v : Value) : List (String × Value) → List (String × Value)
  | [] => [(name, v)]
  | (k, w) :: gs => if k == name then (k, v) :: gs else (k, w) :: bindGlobal name v gs

/-- A top-level function declaration of a script: when evaluation of the script
starts, before its first statement runs, the name is bound on the global object
to the function. -/
def declareFunction (name : String) (f : Callback) (h : Host) : Host :=
  { h with globals := bindGlobal name (Value.function f) h.globals }

/-- The value a global name is bound to. -/
def lookupGlobal (name : String) (h : Host) : Option Value :=
  h.globals.lookup name

/-! ## The script -/

/-- Lines 5-7: `function initializeBlog() { console.log("Blog initialized"); }`.
The function declares no parameters, so whatever the caller passes is ignored. -/
def initializeBlog (_args : List Value) (h : Host) : Completion :=
  consoleLog "Blog initialized" h

/-- Calling a registered function object. -/
def Callback.call : Callback → List Value → Host → Completion
  | .initializeBlog, args, h => DjangoBlog.initializeBlog args h

/-- Evaluation of script.js: the declaration of lines 5-7 is instantiated
first (it binds the global `initializeBlog`), then line 2 runs, then line 10,
where the identifier `initializeBlog` denotes the function just declared. -/
def script (h : Host) : Completion :=
  (consoleLog "Django Blog loaded successfully!"
      (declareFunction "initializeBlog" Callback.initializeBlog h)).andThen
    (addEventListener "DOMContentLoaded" Callback.initializeBlog)

/-! ## Event dispatch by the host -/

/-- Removal of a listener from the document's list. -/
def removeListener (l : Listener) (h : Host) : Host :=
  { h with document := h.document.map (fun ls => ls.erase l) }

/-- One listener of a dispatch: a `once` listener is removed first, then the
callback is called with the event; an exception thrown by the callback is
reported by the host and does not stop the dispatch. -/
def invokeListener (ev : Event) (h : Host) (l : Listener) : Host :=
  (l.callback.call [Value.event ev] (if l.once then removeListener l h else h)).host

/-- The listeners an event dispatched on the document reaches, in order of
registration. -/
def listenersFor (ev : Event) (h : Host) : List Listener :=
  (h.document.getD []).filter (fun l => l.type == ev.type)

/-- Dispatch of an event on the document: the listeners registered for its
type at the start of the dispatch are invoked in order. -/
def dispatchEvent (ev : Event) (h : Host) : Host :=
  (listenersFor ev h).foldl (invokeListener ev) h

/-! ## Host traces -/

/-- What the host can do with the script: evaluate it, or dispatch an event on
the document. -/
inductive Step where
  | evaluate
  | dispatch (ev : Event)
  deriving DecidableEq, Repr

/-- One host step. -/
def step (h : Host) : Step → Host
  | .evaluate => (script h).host
  | .dispatch ev => dispatchEvent ev h

/-- A host trace, run from left to right. -/
def run (tr : List Step) (h : Host) : Host :=
  tr.foldl step h

/-- The host's document-ready signal. -/
def Event.isReady (ev : Event) : Bool :=
  ev.type == "DOMContentLoaded"

/-- A firing of the ready signal. -/
def Step.isReadyFiring : Step → Bool
  | .evaluate => false
  | .dispatch ev => ev.isReady

/-- A host step that is neither an evaluation of the script nor a firing of
the ready signal: the dispatch of some other event. -/
def Step.isOther : Step → Bool
  | .evaluate => false
  | .dispatch ev => !ev.isReady

/-- The log channel's content (empty when there is no console). -/
def Host.log (h : Host) : List String :=
  h.console.getD []

/-- A document at the start of a page load: empty log, no listener yet. -/
def Host.Fresh (h : Host) : Prop :=
  h.console = some [] ∧ h.document = some []

instance (h : Host) : Decidable h.Fresh := by
  unfold Host.Fresh; infer_instance

/-- The states reached by evaluating the script once from `h0` and then firing
the ready signal `k` times. -/
inductive Reachable (h0 : Host) : Nat → Host → Prop where
  | evaluated : Reachable h0 0 (script h0).host
  | fired {k : Nat} {h : Host} (ev : Event) :
      Reachable h0 k h → ev.isReady = true → Reachable h0 (k + 1) (dispatchEvent ev h)

/-- A concrete fresh host used in the examples. -/
def host0 : Host :=
  { console := some [], document := some [], globals := [], network := [], storage := [],
    dom := ["<body>"] }

/-- A ready event and a click event. -/
def readyEv : Event := ⟨"DOMContentLoaded", 7⟩

def clickEv : Event := ⟨"click", 9⟩

/-- A host with a console and no document. -/
def host2 : Host :=
  { console := some [], document := none, globals := [], network := [], storage := [], dom := [] }

/-- A host that has already been used: a log entry, a click listener, two
global bindings (one of them of the name the script declares), a request sent
and a storage entry. -/
def host1 : Host :=
  { console := some ["earlier"], document := some [⟨"click", Callback.initializeBlog, true⟩],
    globals := [("pageSize", Value.number 10), ("initializeBlog", Value.string "taken")],
    network := ["GET /posts/"], storage := [("theme", "dark")], dom := ["<body>"] }

example : (run [.evaluate, .dispatch readyEv] host0).log =
    ["Django Blog loaded successfully!", "Blog initialized"] := by decide

example : (run [.dispatch readyEv, .evaluate, .dispatch clickEv] host0).log =
    ["Django Blog loaded successfully!"] := by decide

/-! ## Basic facts about the operations -/

/-- The listener that line 10 of the script registers. -/
def readyListener : Listener :=
  ⟨"DOMContentLoaded", Callback.initializeBlog, false⟩

theorem consoleLog_of_console {h : Host} {out : List String} (msg : String)
    (hc : h.console = some out) :
    consoleLog msg h = .normal { h with console := some (out ++ [msg]) } := by
  simp [consoleLog, hc]

theorem script_of_present {h : Host} {out : List String} {ls : List Listener}
    (hc : h.console = some out) (hd : h.document = some ls) :
    script h = .normal { h with
      console := some (out ++ ["Django Blog loaded successfully!"])
      document := some (ls ++ [readyListener])
      globals := bindGlobal "initializeBlog" (Value.function Callback.initializeBlog) h.globals } := by
  simp [script, declareFunction, consoleLog, hc, Completion.andThen, addEventListener, hd,
    readyListener]

theorem dispatchEvent_no_listeners {h : Host} (ev : Event) (hd : h.document = some []) :
    dispatchEvent ev h = h := by
  simp [dispatchEvent, listenersFor, hd]

theorem listenersFor_registered_ready {h : Host} {ev : Event}
    (hd : h.document = some [readyListener]) (hr : ev.isReady = true) :
    listenersFor ev h = [readyListener] := by
  have ht : ev.type = "DOMContentLoaded" := by simpa [Event.isReady] using hr
  simp [listenersFor, hd, readyListener, ht]

theorem listenersFor_registered_other {h : Host} {ev : Event}
    (hd : h.document = some [readyListener]) (hr : ev.isReady = false) :
    listenersFor ev h = [] := by
  have ht : ¬ ev.type = "DOMContentLoaded" := by simpa [Event.isReady] using hr
  have ht' : ¬ "DOMContentLoaded" = ev.type := fun e => ht e.symm
  simp [listenersFor, hd, readyListener, ht']

theorem dispatchEvent_registered_ready {h : Host} {out : List String} {ev : Event}
    (hc : h.console = some out) (hd : h.document = some [readyListener])
    (hr : ev.isReady = true) :
    dispatchEvent ev h = { h with console := some (out ++ ["Blog initialized"]) } := by
  simp [dispatchEvent, listenersFor_registered_ready hd hr, invokeListener, readyListener,
    Callback.call, initializeBlog, consoleLog, hc, Completion.host]

theorem dispatchEvent_registered_other {h : Host} {ev : Event}
    (hd : h.document = some [readyListener]) (hr : ev.isReady = false) :
    dispatchEvent ev h = h := by
  simp [dispatchEvent, listenersFor_registered_other hd hr]

theorem run_nil (h : Host) : run [] h = h := rfl

theorem run_cons (s : Step) (tr : List Step) (h : Host) :
    run (s :: tr) h = run tr (step h s) := rfl

theorem run_append (tr₁ tr₂ : List Step) (h : Host) :
    run (tr₁ ++ tr₂) h = run tr₂ (run tr₁ h) := by
  simp [run, List.foldl_append]

theorem step_other_fixed {h : Host} {s : Step} (hs : s.isOther = true)
    (hd : h.document = some [] ∨ h.document = some [readyListener]) : step h s = h := by
  cases s with
  | evaluate => simp [Step.isOther] at hs
  | dispatch ev =>
    have hr : ev.isReady = false := by simpa [Step.isOther] using hs
    rcases hd with hd | hd
    · exact dispatchEvent_no_listeners ev hd
    · exact dispatchEvent_registered_other hd hr

theorem run_others_fixed {h : Host} (tr : List Step) (hs : ∀ s ∈ tr, s.isOther = true)
    (hd : h.document = some [] ∨ h.document = some [readyListener]) : run tr h = h := by
  induction tr with
  | nil => rfl
  | cons s tr ih =>
    rw [run_cons, step_other_fixed (hs s (List.mem_cons_self _ _)) hd]
    exact ih (fun t ht => hs t (List.mem_cons_of_mem _ ht))

theorem step_evaluate_fresh {h : Host} (hf : h.Fresh) :
    step h .evaluate = { h with
      console := some ["Django Blog loaded successfully!"]
      document := some [readyListener]
      globals := bindGlobal "initializeBlog" (Value.function Callback.initializeBlog) h.globals } := by
  simp [step, script_of_present hf.1 hf.2, Completion.host]

theorem step_ready_fresh {h : Host} {ev : Event} (hf : h.Fresh) :
    step h (.dispatch ev) = h := by
  simp [step, dispatchEvent_no_listeners ev hf.2]

theorem run_dispatches_fresh {h : Host} (tr : List Step) (hs : ∀ s ∈ tr, s ≠ Step.evaluate)
    (hd : h.document = some []) : run tr h = h := by
  induction tr with
  | nil => rfl
  | cons s tr ih =>
    have hstep : step h s = h := by
      cases s with
      | evaluate => exact absurd rfl (hs _ (List.mem_cons_self _ _))
      | dispatch ev => exact dispatchEvent_no_listeners ev hd
    rw [run_cons, hstep]
    exact ih (fun t ht => hs t (List.mem_cons_of_mem _ ht))

/-- Once the listener is registered, a trace without further evaluation adds
one "Blog initialized" per ready firing and changes nothing else. -/
theorem run_registered (tr : List Step) :
    ∀ (h : Host) (out : List String), h.console = some out →
      h.document = some [readyListener] → (∀ s ∈ tr, s ≠ Step.evaluate) →
      run tr h = { h with
        console := some (out ++ List.replicate (tr.countP Step.isReadyFiring) "Blog initialized") } := by
  induction tr with
  | nil =>
    intro h out hc _ _
    cases h
    simp_all [run]
  | cons s tr ih =>
    intro h out hc hd hs
    have htl : ∀ t ∈ tr, t ≠ Step.evaluate := fun t ht => hs t (List.mem_cons_of_mem _ ht)
    cases s with
    | evaluate => exact absurd rfl (hs _ (List.mem_cons_self _ _))
    | dispatch ev =>
      rw [run_cons]
      cases hr : ev.isReady with
      | true =>
        have hstep : step h (.dispatch ev) =
            { h with console := some (out ++ ["Blog initialized"]) } :=
          dispatchEvent_registered_ready hc hd hr
        rw [hstep, ih { h with console := some (out ++ ["Blog initialized"]) }
          (out ++ ["Blog initialized"]) rfl hd htl]
        simp [List.countP_cons, Step.isReadyFiring, hr, List.replicate_succ]
      | false =>
        have hstep : step h (.dispatch ev) = h := dispatchEvent_registered_other hd hr
        rw [hstep, ih h out hc hd htl]
        simp [List.countP_cons, Step.isReadyFiring, hr]

theorem others_not_evaluate {tr : List Step} (hs : ∀ s ∈ tr, s.isOther = true) :
    ∀ s ∈ tr, s ≠ Step.evaluate := by
  intro s hmem he
  have := hs s hmem
  simp [he, Step.isOther] at this

theorem others_countP {tr : List Step} (hs : ∀ s ∈ tr, s.isOther = true) :
    tr.countP Step.isReadyFiring = 0 := by
  rw [List.countP_eq_zero]
  intro s hmem
  have := hs s hmem
  cases s with
  | evaluate => simp [Step.isReadyFiring]
  | dispatch ev => simpa [Step.isOther, Step.isReadyFiring] using this

theorem count_initialized (k : Nat) :
    ("Django Blog loaded successfully!" :: List.replicate k "Blog initialized").count
      "Blog initialized" = k := by
  rw [List.count_cons_of_ne (by decide), List.count_replicate_self]

/-! ## Evaluation of the script -/

/-- C1: evaluating script.js in a host whose log is empty leaves the log equal
to the single entry "Django Blog loaded successfully!" (so the string occurs
exactly once), whatever the rest of the host state is; with a document present
the evaluation completes normally. -/
theorem script_logs_loaded_once (h : Host) (hc : h.console = some []) :
    (script h).host.log = ["Django Blog loaded successfully!"] ∧
    (script h).host.log.count "Django Blog loaded successfully!" = 1 ∧
    (∀ ls, h.document = some ls →
      ∃ h', script h = .normal h' ∧ h'.console = some ["Django Blog loaded successfully!"]) := by
  have hlog : (script h).host.log = ["Django Blog loaded successfully!"] := by
    cases hd : h.document <;>
      simp [script, declareFunction, consoleLog, hc, Completion.andThen, addEventListener, hd,
        Completion.host, Host.log]
  refine ⟨hlog, ?_, ?_⟩
  · rw [hlog]; simp
  · intro ls hd
    exact ⟨_, script_of_present hc hd, rfl⟩

theorem script_logs_loaded_once_witness :
    (script host0).host.log = ["Django Blog loaded successfully!"] ∧
    (script host0).host.log.count "Django Blog loaded successfully!" = 1 ∧
    (∀ ls, host0.document = some ls →
      ∃ h', script host0 = .normal h' ∧
        h'.console = some ["Django Blog loaded successfully!"]) :=
  script_logs_loaded_once host0 rfl

/-- C7: in every host with a console and a document, evaluation of script.js
completes normally, having bound the declared function, appended the load
message and then registered the listener.  The order of the two statements
shows where a global is missing: without a console nothing is logged or
registered before the throw, without a document the message is already logged
when the registration throws. -/
theorem script_completes_normally (h : Host) :
    (∀ out ls, h.console = some out → h.document = some ls →
      script h = .normal { h with
        console := some (out ++ ["Django Blog loaded successfully!"])
        document := some (ls ++ [⟨"DOMContentLoaded", Callback.initializeBlog, false⟩])
        globals := bindGlobal "initializeBlog" (Value.function Callback.initializeBlog) h.globals }) ∧
    (h.console = none → script h = .throw (.referenceError "console")
      { h with globals := bindGlobal "initializeBlog" (Value.function Callback.initializeBlog) h.globals }) ∧
    (∀ out, h.console = some out → h.document = none →
      script h = .throw (.referenceError "document")
        { h with
          console := some (out ++ ["Django Blog loaded successfully!"])
          globals := bindGlobal "initializeBlog" (Value.function Callback.initializeBlog) h.globals }) := by
  refine ⟨?_, ?_, ?_⟩
  · intro out ls hc hd
    exact script_of_present hc hd
  · intro hc
    simp [script, declareFunction, consoleLog, hc, Completion.andThen]
  · intro out hc hd
    simp [script, declareFunction, consoleLog, hc, Completion.andThen, addEventListener, hd]

theorem script_completes_normally_witness :
    script host0 = .normal { host0 with
      console := some ([] ++ ["Django Blog loaded successfully!"])
      document := some ([] ++ [⟨"DOMContentLoaded", Callback.initializeBlog, false⟩])
      globals := bindGlobal "initializeBlog" (Value.function Callback.initializeBlog) host0.globals } ∧
    script host2 = .throw (.referenceError "document")
      { host2 with
        console := some ([] ++ ["Django Blog loaded successfully!"])
        globals := bindGlobal "initializeBlog" (Value.function Callback.initializeBlog) host2.globals } :=
  ⟨(script_completes_normally host0).1 [] [] rfl rfl,
   (script_completes_normally host2).2.2 [] rfl rfl⟩

theorem lookup_bindGlobal_self (name : String) (v : Value) (gs : List (String × Value)) :
    (bindGlobal name v gs).lookup name = some v := by
  induction gs with
  | nil => simp [bindGlobal, List.lookup]
  | cons p gs ih =>
    obtain ⟨k, w⟩ := p
    by_cases hk : k = name
    · simp [bindGlobal, hk, List.lookup]
    · have hb : (name == k) = false := by simpa using fun e => hk e.symm
      simp [bindGlobal, hk, List.lookup, hb, ih]

theorem lookup_bindGlobal_other (name other : String) (v : Value) (gs : List (String × Value))
    (hne : other ≠ name) : (bindGlobal name v gs).lookup other = gs.lookup other := by
  have hb : (other == name) = false := by simpa using hne
  induction gs with
  | nil => simp [bindGlobal, List.lookup, hb]
  | cons p gs ih =>
    obtain ⟨k, w⟩ := p
    by_cases hk : k = name
    · subst hk
      simp [bindGlobal, List.lookup, hb]
    · cases ho : other == k <;> simp [bindGlobal, hk, List.lookup, ho, ih]

/-- C4, as stated, fails: evaluation of script.js changes a component of the
host state that is neither the log nor the listener list.  The declaration on
lines 5-7 binds the global name `initializeBlog`, which was unbound before (or
bound to something else, and is then overwritten). -/
theorem script_binds_global_counterexample :
    lookupGlobal "initializeBlog" host0 = none ∧
    lookupGlobal "initializeBlog" (script host0).host =
      some (Value.function Callback.initializeBlog) ∧
    (script host0).host.globals ≠ host0.globals ∧
    lookupGlobal "initializeBlog" host1 = some (Value.string "taken") ∧
    lookupGlobal "initializeBlog" (script host1).host =
      some (Value.function Callback.initializeBlog) := by
  decide

/-- C4 (amended): evaluation of script.js binds the global name
`initializeBlog` to the declared function and leaves every other global
binding, the requests sent, the storage and the page content as they were; it
keeps the presence of console and document, only appends to the log and to
the listener list, and leaves the listeners of every event other than
DOMContentLoaded unchanged.  A call of initializeBlog leaves everything but
the log unchanged, the listener list and the global bindings included. -/
theorem script_frame (h : Host) :
    ((script h).host.network = h.network ∧ (script h).host.storage = h.storage ∧
      (script h).host.dom = h.dom ∧
      (∀ ev : Event, ev.isReady = false →
        listenersFor ev (script h).host = listenersFor ev h) ∧
      (∃ ls, (script h).host.document = h.document.map (fun old => old ++ ls)) ∧
      (∃ out, (script h).host.console = h.console.map (fun old => old ++ out)) ∧
      (script h).host.globals =
        bindGlobal "initializeBlog" (Value.function Callback.initializeBlog) h.globals ∧
      lookupGlobal "initializeBlog" (script h).host =
        some (Value.function Callback.initializeBlog) ∧
      (∀ name : String, name ≠ "initializeBlog" →
        lookupGlobal name (script h).host = lookupGlobal name h)) ∧
    (∀ args : List Value,
      (initializeBlog args h).host.network = h.network ∧
      (initializeBlog args h).host.storage = h.storage ∧
      (initializeBlog args h).host.dom = h.dom ∧
      (initializeBlog args h).host.document = h.document ∧
      (initializeBlog args h).host.globals = h.globals ∧
      (∃ out, (initializeBlog args h).host.console = h.console.map (fun old => old ++ out))) := by
  have hg : (script h).host.globals =
      bindGlobal "initializeBlog" (Value.function Callback.initializeBlog) h.globals := by
    cases hc : h.console <;> cases hd : h.document <;>
      simp [script, declareFunction, consoleLog, hc, Completion.andThen, addEventListener, hd,
        Completion.host]
  constructor
  · refine ⟨?_, ?_, ?_, ?_, ?_, ?_, hg, ?_, ?_⟩
    · cases hc : h.console <;> cases hd : h.document <;>
        simp [script, declareFunction, consoleLog, hc, Completion.andThen, addEventListener, hd,
          Completion.host]
    · cases hc : h.console <;> cases hd : h.document <;>
        simp [script, declareFunction, consoleLog, hc, Completion.andThen, addEventListener, hd,
          Completion.host]
    · cases hc : h.console <;> cases hd : h.document <;>
        simp [script, declareFunction, consoleLog, hc, Completion.andThen, addEventListener, hd,
          Completion.host]
    · intro ev hr
      have ht : ¬ ev.type = "DOMContentLoaded" := by simpa [Event.isReady] using hr
      have ht' : ¬ "DOMContentLoaded" = ev.type := fun e => ht e.symm
      cases hc : h.console <;> cases hd : h.document <;>
        simp [script, declareFunction, consoleLog, hc, Completion.andThen, addEventListener, hd,
          Completion.host, listenersFor, List.filter_append, ht']
    · cases hc : h.console with
      | none =>
        refine ⟨[], ?_⟩
        cases hd : h.document <;>
          simp [script, declareFunction, consoleLog, hc, Completion.andThen, Completion.host, hd]
      | some out =>
        cases hd : h.document with
        | none =>
          exact ⟨[], by
            simp [script, declareFunction, consoleLog, hc, Completion.andThen, addEventListener,
              hd, Completion.host]⟩
        | some ls =>
          exact ⟨[readyListener], by
            simp [script_of_present hc hd, Completion.host]⟩
    · cases hc : h.console with
      | none =>
        exact ⟨[], by
          simp [script, declareFunction, consoleLog, hc, Completion.andThen, Completion.host]⟩
      | some out =>
        refine ⟨["Django Blog loaded successfully!"], ?_⟩
        cases hd : h.document <;>
          simp [script, declareFunction, consoleLog, hc, Completion.andThen, addEventListener,
            hd, Completion.host]
    · rw [lookupGlobal, hg]
      exact lookup_bindGlobal_self _ _ _
    · intro name hne
      rw [lookupGlobal, hg]
      exact lookup_bindGlobal_other _ _ _ _ hne
  · intro args
    cases hc : h.console with
    | none =>
      simp [initializeBlog, consoleLog, hc, Completion.host]
    | some out =>
      simp only [initializeBlog, consoleLog_of_console _ hc, Completion.host, Option.map_some']
      exact ⟨trivial, trivial, trivial, trivial, trivial, ⟨_, rfl⟩⟩

theorem script_frame_witness :
    listenersFor clickEv (script host1).host = listenersFor clickEv host1 ∧
    (script host1).host.network = ["GET /posts/"] ∧
    lookupGlobal "pageSize" (script host1).host = lookupGlobal "pageSize" host1 :=
  ⟨(script_frame host1).1.2.2.2.1 clickEv rfl, (script_frame host1).1.1,
   (script_frame host1).1.2.2.2.2.2.2.2.2 "pageSize" (by decide)⟩

/-- C3: evaluating script.js appends exactly one listener to the document's
list, for 'DOMContentLoaded' with callback initializeBlog.  On a document that
had no listener, one firing of the ready signal then reaches exactly that
listener and logs "Blog initialized" once; and over any later trace in which
the host fires the ready signal at most once, initializeBlog runs (logs) at
most once. -/
theorem script_registers_one_listener (h : Host) (out : List String) (ls : List Listener)
    (hc : h.console = some out) (hd : h.document = some ls) :
    (script h).host.document =
      some (ls ++ [⟨"DOMContentLoaded", Callback.initializeBlog, false⟩]) ∧
    (ls = [] → ∀ ev : Event, ev.isReady = true →
      listenersFor ev (script h).host = [⟨"DOMContentLoaded", Callback.initializeBlog, false⟩] ∧
      (dispatchEvent ev (script h).host).log =
        out ++ ["Django Blog loaded successfully!", "Blog initialized"]) ∧
    (ls = [] → out = [] → ∀ tr : List Step, (∀ s ∈ tr, s ≠ Step.evaluate) →
      tr.countP Step.isReadyFiring ≤ 1 →
      (run (Step.evaluate :: tr) h).log.count "Blog initialized" ≤ 1) := by
  have hs := script_of_present hc hd
  refine ⟨?_, ?_, ?_⟩
  · rw [hs]; rfl
  · intro hnil ev hr
    subst hnil
    rw [hs]
    simp only [Completion.host, List.nil_append]
    constructor
    · exact listenersFor_registered_ready rfl hr
    · rw [@dispatchEvent_registered_ready _ (out ++ ["Django Blog loaded successfully!"]) _
        rfl rfl hr]
      simp [Host.log]
  · intro hnil hout tr hne hcount
    subst hnil; subst hout
    rw [run_cons, step_evaluate_fresh ⟨hc, hd⟩, run_registered tr _ _ rfl rfl hne]
    simp only [Host.log, Option.getD_some, List.singleton_append]
    rw [count_initialized]
    exact hcount

theorem script_registers_one_listener_witness :
    (script host0).host.document =
      some ([] ++ [⟨"DOMContentLoaded", Callback.initializeBlog, false⟩]) ∧
    listenersFor readyEv (script host0).host =
      [⟨"DOMContentLoaded", Callback.initializeBlog, false⟩] ∧
    (run [Step.evaluate, Step.dispatch clickEv, Step.dispatch readyEv] host0).log.count
      "Blog initialized" ≤ 1 :=
  ⟨(script_registers_one_listener host0 [] [] rfl rfl).1,
   ((script_registers_one_listener host0 [] [] rfl rfl).2.1 rfl readyEv rfl).1,
   (script_registers_one_listener host0 [] [] rfl rfl).2.2 rfl rfl
     [Step.dispatch clickEv, Step.dispatch readyEv] (by decide) (by decide)⟩

/-! ## The callback -/

/-- C6: a call of initializeBlog in a host with a console, with any arguments,
completes normally and appends the single entry "Blog initialized"; and if,
after evaluation of the script on a document without listeners, the ready
signal is fired once per event of `evs`, the log gains the load message
followed by one "Blog initialized" per firing. -/
theorem initializeBlog_logs_once_per_call (h : Host) (out : List String)
    (hc : h.console = some out) :
    (∀ args : List Value,
      initializeBlog args h = .normal { h with console := some (out ++ ["Blog initialized"]) }) ∧
    (∀ evs : List Event, h.document = some [] → (∀ ev ∈ evs, ev.isReady = true) →
      (run (Step.evaluate :: evs.map Step.dispatch) h).log =
        out ++ "Django Blog loaded successfully!" ::
          List.replicate evs.length "Blog initialized") := by
  constructor
  · intro args
    exact consoleLog_of_console _ hc
  · intro evs hd hr
    have hne : ∀ s ∈ evs.map Step.dispatch, s ≠ Step.evaluate := by
      intro s hmem
      obtain ⟨ev, _, rfl⟩ := List.mem_map.1 hmem
      simp
    have hcount : (evs.map Step.dispatch).countP Step.isReadyFiring = evs.length := by
      rw [← List.length_map evs Step.dispatch]
      refine List.countP_eq_length.2 (fun s hmem => ?_)
      obtain ⟨ev, hev, rfl⟩ := List.mem_map.1 hmem
      simpa [Step.isReadyFiring] using hr ev hev
    have hev : step h Step.evaluate = { h with
        console := some (out ++ ["Django Blog loaded successfully!"])
        document := some [readyListener]
        globals := bindGlobal "initializeBlog" (Value.function Callback.initializeBlog) h.globals } := by
      simp [step, script_of_present hc hd, Completion.host]
    rw [run_cons, hev, run_registered _ _ _ rfl rfl hne, hcount]
    simp [Host.log]

theorem initializeBlog_logs_once_per_call_witness :
    (run (Step.evaluate :: [readyEv, ⟨"DOMContentLoaded", 8⟩].map Step.dispatch) host0).log =
      [] ++ "Django Blog loaded successfully!" ::
        List.replicate [readyEv, (⟨"DOMContentLoaded", 8⟩ : Event)].length "Blog initialized" :=
  (initializeBlog_logs_once_per_call host0 [] rfl).2 [readyEv, ⟨"DOMContentLoaded", 8⟩] rfl
    (by decide)

/-! ## Traces -/

/-- C2, as stated, fails on a trace in which the ready signal fires before the
script is evaluated: the signal has fired, and the log holds no
"Blog initialized". -/
theorem ready_before_evaluation_counterexample :
    host0.Fresh ∧ (Step.dispatch readyEv).isReadyFiring = true ∧
    (run [Step.dispatch readyEv, Step.evaluate] host0).log.count "Blog initialized" = 0 ∧
    ¬ (run [Step.dispatch readyEv, Step.evaluate] host0).log.count "Blog initialized" = 1 := by
  decide

/-- C2 (amended): on a fresh document, when the script is evaluated first and
the ready signal then fires (once), with other events dispatched before and
after at will, the log holds "Blog initialized" exactly once from the firing
on; and at no point of the trace before the firing (evaluation of the script
included) does the log hold "Blog initialized". -/
theorem initialized_once_after_ready (h0 : Host) (hf : h0.Fresh) (pre post : List Step)
    (ev : Event) (hpre : ∀ s ∈ pre, s.isOther = true) (hpost : ∀ s ∈ post, s.isOther = true)
    (hr : ev.isReady = true) :
    (run (Step.evaluate :: pre ++ [Step.dispatch ev] ++ post) h0).log.count
      "Blog initialized" = 1 ∧
    (∀ n, n ≤ pre.length + 1 →
      "Blog initialized" ∉
        (run ((Step.evaluate :: pre ++ [Step.dispatch ev] ++ post).take n) h0).log) := by
  constructor
  · have hne : ∀ s ∈ pre ++ [Step.dispatch ev] ++ post, s ≠ Step.evaluate := by
      intro s hmem
      simp only [List.mem_append, List.mem_singleton] at hmem
      rcases hmem with (hmem | rfl) | hmem
      · exact others_not_evaluate hpre s hmem
      · simp
      · exact others_not_evaluate hpost s hmem
    have hcount : (pre ++ [Step.dispatch ev] ++ post).countP Step.isReadyFiring = 1 := by
      simp [List.countP_append, others_countP hpre, others_countP hpost, Step.isReadyFiring, hr]
    have htr : Step.evaluate :: pre ++ [Step.dispatch ev] ++ post =
        Step.evaluate :: (pre ++ [Step.dispatch ev] ++ post) := by simp
    rw [htr, run_cons, step_evaluate_fresh hf, run_registered _ _ _ rfl rfl hne, hcount]
    exact count_initialized 1
  · intro n hn
    have htake : (Step.evaluate :: pre ++ [Step.dispatch ev] ++ post).take n =
        (Step.evaluate :: pre).take n := by
      rw [List.append_assoc, List.take_append_of_le_length (by simpa using hn)]
    rw [htake]
    cases n with
    | zero => simp [run, Host.log, hf.1]
    | succ m =>
      have hm : ∀ s ∈ pre.take m, s.isOther = true :=
        fun s hmem => hpre s (List.mem_of_mem_take hmem)
      rw [List.take_succ_cons, run_cons, step_evaluate_fresh hf,
        run_others_fixed _ hm (Or.inr rfl)]
      show "Blog initialized" ∉ ["Django Blog loaded successfully!"]
      decide

theorem initialized_once_after_ready_witness :
    (run (Step.evaluate :: [Step.dispatch clickEv] ++ [Step.dispatch readyEv] ++
      [Step.dispatch clickEv]) host0).log.count "Blog initialized" = 1 ∧
    (∀ n, n ≤ [Step.dispatch clickEv].length + 1 →
      "Blog initialized" ∉
        (run ((Step.evaluate :: [Step.dispatch clickEv] ++ [Step.dispatch readyEv] ++
          [Step.dispatch clickEv]).take n) host0).log) :=
  initialized_once_after_ready host0 (by decide) [Step.dispatch clickEv] [Step.dispatch clickEv]
    readyEv (by decide) (by decide) rfl

/-- C5: on a fresh document, after evaluation of the script, a trace of host
steps none of which is a ready firing leaves the log equal to
["Django Blog loaded successfully!"] at every point of the trace. -/
theorem only_loaded_without_ready (h0 : Host) (hf : h0.Fresh) (tr : List Step)
    (hs : ∀ s ∈ tr, s.isOther = true) (n : Nat) :
    (run (Step.evaluate :: tr.take n) h0).log = ["Django Blog loaded successfully!"] := by
  have hn : ∀ s ∈ tr.take n, s.isOther = true :=
    fun s hmem => hs s (List.mem_of_mem_take hmem)
  rw [run_cons, step_evaluate_fresh hf, run_others_fixed _ hn (Or.inr rfl)]
  rfl

theorem only_loaded_without_ready_witness :
    (run (Step.evaluate :: [Step.dispatch clickEv, Step.dispatch ⟨"load", 12⟩].take 2) host0).log =
      ["Django Blog loaded successfully!"] :=
  only_loaded_without_ready host0 (by decide) [Step.dispatch clickEv, Step.dispatch ⟨"load", 12⟩]
    (by decide) 2

theorem reachable_state {h0 : Host} (hf : h0.Fresh) {k : Nat} {h : Host}
    (hr : Reachable h0 k h) :
    h = { h0 with
      console := some ("Django Blog loaded successfully!" :: List.replicate k "Blog initialized")
      document := some [readyListener]
      globals := bindGlobal "initializeBlog" (Value.function Callback.initializeBlog) h0.globals } := by
  induction hr with
  | evaluated =>
    simp [script_of_present hf.1 hf.2, Completion.host]
  | fired ev _ hready ih =>
    rw [ih, dispatchEvent_registered_ready rfl rfl hready]
    simp [List.replicate_succ']

/-- C8: in every state reached from a fresh document by evaluating the script
once and then firing the ready signal `k` times, the log is
"Django Blog loaded successfully!" followed by `k` copies of
"Blog initialized"; so it holds only these two strings, starts with the load
message, and every "Blog initialized" sits at a later position. -/
theorem log_shape_invariant (h0 : Host) (hf : h0.Fresh) (k : Nat) (h : Host)
    (hr : Reachable h0 k h) :
    h.log = "Django Blog loaded successfully!" :: List.replicate k "Blog initialized" ∧
    (∀ m ∈ h.log, m = "Django Blog loaded successfully!" ∨ m = "Blog initialized") ∧
    h.log[0]? = some "Django Blog loaded successfully!" ∧
    (∀ i, h.log[i]? = some "Blog initialized" → 0 < i) ∧
    h.log.count "Blog initialized" = k := by
  have hlog : h.log =
      "Django Blog loaded successfully!" :: List.replicate k "Blog initialized" := by
    rw [reachable_state hf hr]; rfl
  rw [hlog]
  refine ⟨rfl, ?_, by simp, ?_, count_initialized k⟩
  · intro m hm
    rcases List.mem_cons.1 hm with rfl | hm
    · exact Or.inl rfl
    · exact Or.inr (List.eq_of_mem_replicate hm)
  · intro i hi
    cases i with
    | zero =>
      simp at hi
    | succ j => exact Nat.succ_pos j

theorem log_shape_invariant_witness :
    (dispatchEvent readyEv (dispatchEvent readyEv (script host0).host)).log =
      "Django Blog loaded successfully!" :: List.replicate 2 "Blog initialized" :=
  (log_shape_invariant host0 (by decide) 2 _
    (Reachable.fired readyEv (Reachable.fired readyEv Reachable.evaluated rfl) rfl)).1

/-- C9: on a fresh document, when the ready signal fires before the script is
evaluated and does not fire again (other events may be dispatched at any
time), the ready signal has fired, yet "Blog initialized" is in the log at no
point of the trace and the final log is ["Django Blog loaded successfully!"]. -/
theorem late_evaluation_misses_ready (h0 : Host) (hf : h0.Fresh) (pre mid post : List Step)
    (ev : Event) (hpre : ∀ s ∈ pre, s.isOther = true) (hmid : ∀ s ∈ mid, s.isOther = true)
    (hpost : ∀ s ∈ post, s.isOther = true) (hr : ev.isReady = true) :
    (∃ s ∈ pre ++ [Step.dispatch ev] ++ mid ++ [Step.evaluate] ++ post,
      s.isReadyFiring = true) ∧
    (run (pre ++ [Step.dispatch ev] ++ mid ++ [Step.evaluate] ++ post) h0).log =
      ["Django Blog loaded successfully!"] ∧
    (∀ n, "Blog initialized" ∉
      (run ((pre ++ [Step.dispatch ev] ++ mid ++ [Step.evaluate] ++ post).take n) h0).log) := by
  have hA : ∀ s ∈ pre ++ [Step.dispatch ev] ++ mid, s ≠ Step.evaluate := by
    intro s hmem
    simp only [List.mem_append, List.mem_singleton] at hmem
    rcases hmem with (hmem | rfl) | hmem
    · exact others_not_evaluate hpre s hmem
    · simp
    · exact others_not_evaluate hmid s hmem
  have hT : pre ++ [Step.dispatch ev] ++ mid ++ [Step.evaluate] ++ post =
      (pre ++ [Step.dispatch ev] ++ mid) ++ Step.evaluate :: post := by simp
  refine ⟨⟨Step.dispatch ev, by simp, by simpa [Step.isReadyFiring] using hr⟩, ?_, ?_⟩
  · rw [hT, run_append, run_dispatches_fresh _ hA hf.2, run_cons, step_evaluate_fresh hf,
      run_others_fixed _ hpost (Or.inr rfl)]
    rfl
  · intro n
    have hAn : ∀ s ∈ (pre ++ [Step.dispatch ev] ++ mid).take n, s ≠ Step.evaluate :=
      fun s hmem => hA s (List.mem_of_mem_take hmem)
    rw [hT, List.take_append_eq_append_take, run_append, run_dispatches_fresh _ hAn hf.2]
    cases n - (pre ++ [Step.dispatch ev] ++ mid).length with
    | zero => simp [run, Host.log, hf.1]
    | succ m =>
      have hm : ∀ s ∈ post.take m, s.isOther = true :=
        fun s hmem => hpost s (List.mem_of_mem_take hmem)
      rw [List.take_succ_cons, run_cons, step_evaluate_fresh hf,
        run_others_fixed _ hm (Or.inr rfl)]
      show "Blog initialized" ∉ ["Django Blog loaded successfully!"]
      decide

theorem late_evaluation_misses_ready_witness :
    (run ([Step.dispatch clickEv] ++ [Step.dispatch readyEv] ++ [] ++ [Step.evaluate] ++
      [Step.dispatch clickEv]) host0).log = ["Django Blog loaded successfully!"] :=
  (late_evaluation_misses_ready host0 (by decide) [Step.dispatch clickEv] []
    [Step.dispatch clickEv] readyEv (by decide) (by decide) (by decide) rfl).2.1

end DjangoBlog
